import Mathlib

/-!
# Verification of the request-gatekeeper middleware (`src/middleware.ts`)

The middleware inspects an inbound request (its `pathname` and full
`request.url`) and an optional decoded session token, and produces a
decision: pass the request through (`NextResponse.next()`) or redirect it
(`NextResponse.redirect` to a target path with optional query parameters).

Modelling choices:
- JavaScript strings are modelled as lists of characters (`JStr`);
  `String.prototype.startsWith` becomes `List.isPrefixOf`, `===` on strings
  becomes `==`.
- A redirect decision records the target path together with its query
  parameters as (name, value) pairs, i.e. the information carried by the
  `URL` object the code constructs: `url.searchParams.set("callbackUrl", v)`
  stores the pair `("callbackUrl", v)`, and the literal
  `new URL("/login?error=Account%20is%20inactive", base)` parses to path
  `/login` with the query pair `("error", "Account is inactive")`
  (`%20` decodes to a space).
- The decision function is pure: token lookup is an input (`Option
  SessionToken`), with `null`/undecodable tokens modelled as `none`.
-/

namespace Gatekeeper

/-- Modelled from the spec: the `UserRole` enum imported from
`@/types/models` (a repository file not present under `src/`); the spec
enumerates the roles ADMIN, AGENT, EMPLOYEE, USER. -/
inductive UserRole where
  | ADMIN
  | AGENT
  | EMPLOYEE
  | USER
deriving DecidableEq, Repr

/-- Modelled from the spec: the `ApprovalStatus` enum imported from
`@/types/models` (a repository file not present under `src/`); the spec
describes `APPROVED` and other non-approved workflow states. -/
inductive ApprovalStatus where
  | APPROVED
  | PENDING
  | REJECTED
deriving DecidableEq, Repr

/-- The decoded session token fields used by the middleware:
`role`, `approvalStatus` and `isActive`. -/
structure SessionToken where
  role : UserRole
  approvalStatus : ApprovalStatus
  isActive : Bool
deriving DecidableEq, Repr

/-- JavaScript strings, modelled as lists of characters. -/
abbrev JStr := List Char

/-- Convert a Lean string literal to its character-list model. -/
def str (s : String) : JStr := s.data

/-- The middleware's decision: pass through (`NextResponse.next()`) or
redirect to a target path with query parameters (`NextResponse.redirect`). -/
inductive Decision where
  | next
  | redirect (path : JStr) (query : List (JStr × JStr))
deriving DecidableEq, Repr

/-- Characters left unescaped by JavaScript's `encodeURI`:
alphanumerics plus `; , / ? : @ & = + $ - _ . ! ~ * ' ( ) #`. -/
def encodeURIUnescaped (c : Char) : Bool :=
  c.isAlphanum ||
    c ∈ [';', ',', '/', '?', ':', '@', '&', '=', '+', '$', '-', '_', '.',
         '!', '~', '*', Char.ofNat 39, '(', ')', '#']

/-- Upper-case hexadecimal digit for `n < 16`. -/
def hexDigit (n : Nat) : Char :=
  if n < 10 then Char.ofNat (48 + n) else Char.ofNat (55 + n)

/-- UTF-8 byte sequence of a character, as natural numbers below 256. -/
def utf8Bytes (c : Char) : List Nat :=
  let n := c.toNat
  if n < 0x80 then [n]
  else if n < 0x800 then
    [0xC0 + n / 0x40, 0x80 + n % 0x40]
  else if n < 0x10000 then
    [0xE0 + n / 0x1000, 0x80 + (n / 0x40) % 0x40, 0x80 + n % 0x40]
  else
    [0xF0 + n / 0x40000, 0x80 + (n / 0x1000) % 0x40,
     0x80 + (n / 0x40) % 0x40, 0x80 + n % 0x40]

/-- Percent-encoding of one byte, e.g. `32 ↦ "%20"`. -/
def pctEncode (b : Nat) : JStr :=
  ['%', hexDigit (b / 16), hexDigit (b % 16)]

/-- JavaScript's `encodeURI`: keep unescaped characters, percent-encode
the UTF-8 bytes of every other character. -/
def encodeURI (s : JStr) : JStr :=
  s.flatMap fun c =>
    if encodeURIUnescaped c then [c] else (utf8Bytes c).flatMap pctEncode

/-- `publicRoutes` (middleware.ts lines 15–27): public routes that don't
require authentication. -/
def publicRoutes : List JStr :=
  [str "/",
   str "/login",
   str "/register",
   str "/register/agent",
   str "/register/employee",
   str "/approval",
   str "/forgot-password",
   str "/reset-password",
   str "/map",
   str "/rate",
   str "/callback"]

/-- `publicApiRoutes` (middleware.ts lines 30–44): public API routes that
don't require authentication. -/
def publicApiRoutes : List JStr :=
  [str "/api/public/",
   str "/api/agents/nearby",
   str "/api/auth/",
   str "/api/users/search",
   str "/api/ratings",
   str "/api/callbacks",
   str "/api/questions",
   str "/api/complaints",
   str "/api/locations",
   str "/api/locations/search",
   str "/api/locations/autocomplete",
   str "/api/locations/geocode",
   str "/api/locations/reverse-geocode"]

/-- `isPublicRoute` (middleware.ts lines 47–49):
`publicRoutes.some((route) => pathname === route || pathname.startsWith(route + "/"))`. -/
def isPublicRoute (pathname : JStr) : Bool :=
  publicRoutes.any fun route =>
    pathname == route || (route ++ str "/").isPrefixOf pathname

/-- `isPublicApiRoute` (middleware.ts lines 52–54):
`publicApiRoutes.some((route) => pathname.startsWith(route))`. -/
def isPublicApiRoute (pathname : JStr) : Bool :=
  publicApiRoutes.any fun route => route.isPrefixOf pathname

/-- The static-asset test (middleware.ts lines 57–62):
`pathname.startsWith("/_next") || pathname.startsWith("/images") ||
pathname.startsWith("/fonts") || pathname.startsWith("/favicon")`. -/
def isStaticAsset (pathname : JStr) : Bool :=
  (str "/_next").isPrefixOf pathname ||
  (str "/images").isPrefixOf pathname ||
  (str "/fonts").isPrefixOf pathname ||
  (str "/favicon").isPrefixOf pathname

/-- `middleware` (middleware.ts lines 5–138) as a pure decision function of
the request's `pathname`, the full `request.url`, and the decoded token
(`none` when `getToken` yields no token). -/
def middleware (pathname requestUrl : JStr) (token : Option SessionToken) :
    Decision :=
  -- Allow access to public assets
  if isStaticAsset pathname then .next
  -- Allow public routes and public API routes
  else if isPublicRoute pathname || isPublicApiRoute pathname then
    match token with
    | some t =>
      -- If already logged in, redirect from login/register pages
      if pathname == str "/login" || (str "/register").isPrefixOf pathname then
        -- Check approval status first
        if t.role != UserRole.ADMIN && t.role != UserRole.USER &&
            t.approvalStatus != ApprovalStatus.APPROVED then
          .redirect (str "/approval") []
        -- Redirect to appropriate dashboard based on role
        else if t.role == UserRole.ADMIN then .redirect (str "/admin") []
        else if t.role == UserRole.AGENT then .redirect (str "/agent") []
        else if t.role == UserRole.EMPLOYEE then .redirect (str "/employee") []
        else .redirect (str "/") []
      else .next
    | none => .next
  else
    match token with
    -- Protected routes - require authentication
    | none =>
      .redirect (str "/login") [(str "callbackUrl", encodeURI requestUrl)]
    | some t =>
      -- Check if account is inactive
      if !t.isActive then
        .redirect (str "/login") [(str "error", str "Account is inactive")]
      -- Check approval status for agents and employees
      else if t.role != UserRole.ADMIN && t.role != UserRole.USER &&
          t.approvalStatus != ApprovalStatus.APPROVED then
        .redirect (str "/approval") []
      -- Admin routes
      else if (str "/admin").isPrefixOf pathname && t.role != UserRole.ADMIN then
        .redirect (str "/") []
      -- Agent routes
      else if (str "/agent").isPrefixOf pathname && t.role != UserRole.AGENT then
        .redirect (str "/") []
      -- Employee routes
      else if (str "/employee").isPrefixOf pathname && t.role != UserRole.EMPLOYEE then
        .redirect (str "/") []
      -- Allow authenticated user to proceed
      else .next

/-- The protected classification from the spec's route-classification model:
a path that is neither a static asset nor public; in the code this is the
fall-through branch of `middleware` (lines 94–137). -/
def isProtectedRoute (pathname : JStr) : Bool :=
  !isStaticAsset pathname &&
    !(isPublicRoute pathname || isPublicApiRoute pathname)

/-- The static-asset prefixes, as a list. -/
def staticPrefixes : List JStr :=
  [str "/_next", str "/images", str "/fonts", str "/favicon"]

/-! ## Helper lemmas -/

/-- Bridge from the boolean `List.isPrefixOf` to the `<+:` relation. -/
lemma prefixes_of_isPrefixOf {a b : JStr} (h : a.isPrefixOf b = true) :
    a <+: b := by
  simpa using h

/-- Two prefixes of a common string are comparable, so two prefix-incompatible
strings never both prefix the same path. -/
lemma no_common_extension {a b s : JStr} (hab : ¬ a <+: b) (hba : ¬ b <+: a)
    (h1 : a <+: s) (h2 : b <+: s) : False := by
  rcases Nat.le_total a.length b.length with h | h
  · exact hab (List.prefix_of_prefix_length_le h1 h2 h)
  · exact hba (List.prefix_of_prefix_length_le h2 h1 h)

lemma isStaticAsset_iff {p : JStr} :
    isStaticAsset p = true ↔ ∃ s ∈ staticPrefixes, s <+: p := by
  simp [isStaticAsset, staticPrefixes, or_assoc]

lemma isPublicRoute_iff {p : JStr} :
    isPublicRoute p = true ↔
      ∃ r ∈ publicRoutes, p = r ∨ (r ++ str "/") <+: p := by
  simp [isPublicRoute]

lemma isPublicApiRoute_iff {p : JStr} :
    isPublicApiRoute p = true ↔ ∃ r ∈ publicApiRoutes, r <+: p := by
  simp [isPublicApiRoute]

/-- No static-asset prefix is prefix-comparable with any public route, any
public route followed by a slash, or any public API route. -/
lemma staticPrefixes_incompat :
    ∀ s ∈ staticPrefixes,
      (∀ r ∈ publicRoutes,
        ¬ s <+: r ∧ ¬ s <+: (r ++ str "/") ∧ ¬ (r ++ str "/") <+: s) ∧
      (∀ a ∈ publicApiRoutes, ¬ s <+: a ∧ ¬ a <+: s) := by decide

/-- No public API route is prefix-comparable with any public route or any
public route followed by a slash. -/
lemma apiRoutes_incompat :
    ∀ r ∈ publicRoutes, ∀ a ∈ publicApiRoutes,
      ¬ a <+: r ∧ ¬ (r ++ str "/") <+: a ∧ ¬ a <+: (r ++ str "/") := by decide

lemma static_public_disjoint {p : JStr} (hs : isStaticAsset p = true)
    (hp : isPublicRoute p = true) : False := by
  rw [isStaticAsset_iff] at hs
  rw [isPublicRoute_iff] at hp
  obtain ⟨s, hsmem, hspre⟩ := hs
  obtain ⟨r, hrmem, hcase⟩ := hp
  obtain ⟨h1, h2, h3⟩ := (staticPrefixes_incompat s hsmem).1 r hrmem
  rcases hcase with rfl | hpre
  · exact h1 hspre
  · exact no_common_extension h2 h3 hspre hpre

lemma static_api_disjoint {p : JStr} (hs : isStaticAsset p = true)
    (ha : isPublicApiRoute p = true) : False := by
  rw [isStaticAsset_iff] at hs
  rw [isPublicApiRoute_iff] at ha
  obtain ⟨s, hsmem, hspre⟩ := hs
  obtain ⟨a, hamem, hapre⟩ := ha
  obtain ⟨h1, h2⟩ := (staticPrefixes_incompat s hsmem).2 a hamem
  exact no_common_extension h1 h2 hspre hapre

lemma public_api_disjoint {p : JStr} (hp : isPublicRoute p = true)
    (ha : isPublicApiRoute p = true) : False := by
  rw [isPublicRoute_iff] at hp
  rw [isPublicApiRoute_iff] at ha
  obtain ⟨r, hrmem, hcase⟩ := hp
  obtain ⟨a, hamem, hapre⟩ := ha
  obtain ⟨h1, h2, h3⟩ := apiRoutes_incompat r hrmem a hamem
  rcases hcase with rfl | hpre
  · exact h1 hapre
  · exact no_common_extension h2 h3 hpre hapre

/-- A path extending a prefix that is incompatible with every static-asset
prefix is not a static asset. -/
lemma not_static_of_extends {a p : JStr}
    (hcompat : ∀ s ∈ staticPrefixes, ¬ s <+: a ∧ ¬ a <+: s)
    (h : a <+: p) : isStaticAsset p = false := by
  cases hb : isStaticAsset p
  · rfl
  · exfalso
    rw [isStaticAsset_iff] at hb
    obtain ⟨s, hsmem, hspre⟩ := hb
    exact no_common_extension (hcompat s hsmem).1 (hcompat s hsmem).2 hspre h

/-- On a non-static, non-public path with a token present, `middleware`
reduces to the protected-branch check chain (middleware.ts lines 102–137). -/
lemma middleware_protected_some (pathname requestUrl : JStr) (t : SessionToken)
    (hs : isStaticAsset pathname = false)
    (hp : isPublicRoute pathname = false)
    (ha : isPublicApiRoute pathname = false) :
    middleware pathname requestUrl (some t) =
      if !t.isActive then
        .redirect (str "/login") [(str "error", str "Account is inactive")]
      else if t.role != UserRole.ADMIN && t.role != UserRole.USER &&
          t.approvalStatus != ApprovalStatus.APPROVED then
        .redirect (str "/approval") []
      else if (str "/admin").isPrefixOf pathname && t.role != UserRole.ADMIN then
        .redirect (str "/") []
      else if (str "/agent").isPrefixOf pathname && t.role != UserRole.AGENT then
        .redirect (str "/") []
      else if (str "/employee").isPrefixOf pathname && t.role != UserRole.EMPLOYEE then
        .redirect (str "/") []
      else .next := by
  simp [middleware, hs, hp, ha]

/-! ## Claims -/

/-- C1: for every request path that is not static-asset-prefixed and not
classified public (neither public-page nor public-api), if no token is
present the decision redirects to `/login` with a `callbackUrl` query
parameter equal to the URI-encoded original request URL. -/
theorem protected_no_token_redirects_to_login
    (pathname requestUrl : JStr)
    (hs : isStaticAsset pathname = false)
    (hp : isPublicRoute pathname = false)
    (ha : isPublicApiRoute pathname = false) :
    middleware pathname requestUrl none =
      .redirect (str "/login") [(str "callbackUrl", encodeURI requestUrl)] := by
  simp [middleware, hs, hp, ha]

/-- Witness for C1: the protected path `/admin/users` with no token. -/
theorem protected_no_token_redirects_to_login_witness :
    isStaticAsset (str "/admin/users") = false ∧
    isPublicRoute (str "/admin/users") = false ∧
    isPublicApiRoute (str "/admin/users") = false ∧
    middleware (str "/admin/users") (str "http://localhost:3000/admin/users") none =
      .redirect (str "/login")
        [(str "callbackUrl", encodeURI (str "http://localhost:3000/admin/users"))] :=
  ⟨by decide, by decide, by decide,
   protected_no_token_redirects_to_login _ _ (by decide) (by decide) (by decide)⟩

/-- C2: on every public path with a token present, if the path is exactly
the login page or under the register prefix, the decision is: redirect to
`/approval` when the role is neither ADMIN nor USER and the approval status
is not APPROVED; otherwise redirect to the role-specific home
(ADMIN→`/admin`, AGENT→`/agent`, EMPLOYEE→`/employee`, other→`/`). -/
theorem logged_in_on_login_or_register_redirects
    (pathname requestUrl : JStr) (t : SessionToken)
    (hpub : (isPublicRoute pathname || isPublicApiRoute pathname) = true)
    (hlr : (pathname == str "/login" || (str "/register").isPrefixOf pathname) = true) :
    middleware pathname requestUrl (some t) =
      if t.role != UserRole.ADMIN && t.role != UserRole.USER &&
          t.approvalStatus != ApprovalStatus.APPROVED then
        .redirect (str "/approval") []
      else if t.role == UserRole.ADMIN then .redirect (str "/admin") []
      else if t.role == UserRole.AGENT then .redirect (str "/agent") []
      else if t.role == UserRole.EMPLOYEE then .redirect (str "/employee") []
      else .redirect (str "/") [] := by
  have hs : isStaticAsset pathname = false := by
    rcases Bool.or_eq_true_iff.mp hlr with h | h
    · have hpl : pathname = str "/login" := by simpa using h
      subst hpl; decide
    · exact not_static_of_extends (by decide) (prefixes_of_isPrefixOf h)
  simp [middleware, hs, hpub, hlr]

/-- Witness for C2: an ADMIN token visiting `/login` is redirected to
`/admin`. -/
theorem logged_in_on_login_or_register_redirects_witness :
    (isPublicRoute (str "/login") || isPublicApiRoute (str "/login")) = true ∧
    ((str "/login" : JStr) == str "/login" ||
      (str "/register").isPrefixOf (str "/login")) = true ∧
    middleware (str "/login") (str "http://h/login")
        (some ⟨UserRole.ADMIN, ApprovalStatus.APPROVED, true⟩) =
      .redirect (str "/admin") [] :=
  ⟨by decide, by decide,
   (logged_in_on_login_or_register_redirects (str "/login") (str "http://h/login")
      ⟨UserRole.ADMIN, ApprovalStatus.APPROVED, true⟩ (by decide) (by decide)).trans
     (by decide)⟩

/-- C3: on every non-public, non-static path, a token whose `isActive`
field is false yields a redirect to `/login` with an `error` query
parameter valued "Account is inactive", regardless of role or approval
status. -/
theorem inactive_token_redirects_with_error
    (pathname requestUrl : JStr) (t : SessionToken)
    (hs : isStaticAsset pathname = false)
    (hp : isPublicRoute pathname = false)
    (ha : isPublicApiRoute pathname = false)
    (hact : t.isActive = false) :
    middleware pathname requestUrl (some t) =
      .redirect (str "/login") [(str "error", str "Account is inactive")] := by
  simp [middleware, hs, hp, ha, hact]

/-- Witness for C3: an inactive, non-approved AGENT token on the protected
path `/admin/users`; the inactivity error wins over the approval check. -/
theorem inactive_token_redirects_with_error_witness :
    isStaticAsset (str "/admin/users") = false ∧
    isPublicRoute (str "/admin/users") = false ∧
    isPublicApiRoute (str "/admin/users") = false ∧
    (⟨UserRole.AGENT, ApprovalStatus.PENDING, false⟩ : SessionToken).isActive = false ∧
    middleware (str "/admin/users") (str "http://h/admin/users")
        (some ⟨UserRole.AGENT, ApprovalStatus.PENDING, false⟩) =
      .redirect (str "/login") [(str "error", str "Account is inactive")] :=
  ⟨by decide, by decide, by decide, by decide,
   inactive_token_redirects_with_error _ _ _
     (by decide) (by decide) (by decide) (by decide)⟩

/-- C4 counterexample: an AGENT token with `isActive = false` visiting
`/employee/dashboard` is NOT redirected to `/` (it gets the inactive-account
login redirect instead), refuting the claim for arbitrary AGENT tokens. -/
theorem agent_inactive_on_employee_dashboard_not_home :
    middleware (str "/employee/dashboard") (str "http://h/employee/dashboard")
        (some ⟨UserRole.AGENT, ApprovalStatus.APPROVED, false⟩) ≠
      Decision.redirect (str "/") [] := by decide

/-- C4 amended: every active, APPROVED token with role AGENT requesting
`/employee/dashboard` is redirected to `/` (the home page). -/
theorem agent_on_employee_dashboard_redirects_home
    (requestUrl : JStr) (t : SessionToken)
    (hrole : t.role = UserRole.AGENT)
    (hact : t.isActive = true)
    (happ : t.approvalStatus = ApprovalStatus.APPROVED) :
    middleware (str "/employee/dashboard") requestUrl (some t) =
      .redirect (str "/") [] := by
  rw [middleware_protected_some _ _ _ (by decide) (by decide) (by decide)]
  obtain ⟨role, app, act⟩ := t
  simp only at hrole hact happ
  subst hrole hact happ
  decide

/-- Witness for C4 (amended): the active APPROVED AGENT token. -/
theorem agent_on_employee_dashboard_redirects_home_witness :
    (⟨UserRole.AGENT, ApprovalStatus.APPROVED, true⟩ : SessionToken).role = UserRole.AGENT ∧
    (⟨UserRole.AGENT, ApprovalStatus.APPROVED, true⟩ : SessionToken).isActive = true ∧
    (⟨UserRole.AGENT, ApprovalStatus.APPROVED, true⟩ : SessionToken).approvalStatus =
      ApprovalStatus.APPROVED ∧
    middleware (str "/employee/dashboard") (str "http://h/employee/dashboard")
        (some ⟨UserRole.AGENT, ApprovalStatus.APPROVED, true⟩) =
      .redirect (str "/") [] :=
  ⟨rfl, rfl, rfl,
   agent_on_employee_dashboard_redirects_home _ _ rfl rfl rfl⟩

/-- C5: every path with a static-asset prefix (`/_next`, `/images`,
`/fonts`, `/favicon`) is allowed through, for every token state including
no token. -/
theorem static_asset_always_allowed
    (pathname requestUrl : JStr) (token : Option SessionToken)
    (hs : isStaticAsset pathname = true) :
    middleware pathname requestUrl token = .next := by
  simp [middleware, hs]

/-- Witness for C5: `/_next/static/chunk.js` with an inactive non-approved
token is still allowed. -/
theorem static_asset_always_allowed_witness :
    isStaticAsset (str "/_next/static/chunk.js") = true ∧
    middleware (str "/_next/static/chunk.js") (str "http://h/_next/static/chunk.js")
        (some ⟨UserRole.EMPLOYEE, ApprovalStatus.PENDING, false⟩) = .next :=
  ⟨by decide, static_asset_always_allowed _ _ _ (by decide)⟩

/-- C6: the static-asset test, the public-page test and the public-API test
are pairwise disjoint predicates on paths, and every path satisfies exactly
one of the four classifications static-asset, public-page, public-api,
protected (the last being the complement of the first three). -/
theorem route_classification_exclusive (pathname : JStr) :
    (isStaticAsset pathname && isPublicRoute pathname) = false ∧
    (isStaticAsset pathname && isPublicApiRoute pathname) = false ∧
    (isPublicRoute pathname && isPublicApiRoute pathname) = false ∧
    (isStaticAsset pathname || isPublicRoute pathname ||
      isPublicApiRoute pathname || isProtectedRoute pathname) = true := by
  cases h1 : isStaticAsset pathname <;>
    cases h2 : isPublicRoute pathname <;>
    cases h3 : isPublicApiRoute pathname
  all_goals
    first
      | exact (static_public_disjoint h1 h2).elim
      | exact (static_api_disjoint h1 h3).elim
      | exact (public_api_disjoint h2 h3).elim
      | simp [isProtectedRoute, h1, h2, h3]

/-- C7 counterexample: two requests with the same path `/x` and the same
token state (none) but different full request URLs produce different
decisions — the `callbackUrl` value embeds the full URL, so the decision is
not a function of (path, token) alone. -/
theorem same_path_different_url_different_decision :
    middleware (str "/x") (str "http://a/x") none ≠
      middleware (str "/x") (str "http://b/x") none := by decide

/-- C7 amended: the decision is a deterministic pure function of the pair
(full request URL, token): for a fixed path, token and request URL it is
always the same, and any dependence beyond (path, token) is confined to the
`callbackUrl` value of the unauthenticated login redirect. -/
theorem decision_deterministic
    (pathname u1 u2 : JStr) (token : Option SessionToken) :
    middleware pathname u1 token = middleware pathname u2 token ∨
      (middleware pathname u1 token =
          .redirect (str "/login") [(str "callbackUrl", encodeURI u1)] ∧
        middleware pathname u2 token =
          .redirect (str "/login") [(str "callbackUrl", encodeURI u2)]) := by
  rcases token with _ | t
  · simp only [middleware]
    split
    · exact Or.inl rfl
    · split
      · exact Or.inl rfl
      · exact Or.inr ⟨rfl, rfl⟩
  · exact Or.inl rfl

/-- C8: the path `/approval`, and every path under `/approval/`, is allowed
through for every token state (any role, any approval status, any
`isActive` value, or no token), so the `/approval` redirect target never
itself redirects. -/
theorem approval_always_allowed
    (pathname requestUrl : JStr) (token : Option SessionToken)
    (h : pathname = str "/approval" ∨ (str "/approval/") <+: pathname) :
    middleware pathname requestUrl token = .next := by
  have hpub : isPublicRoute pathname = true := by
    rw [isPublicRoute_iff]
    refine ⟨str "/approval", by decide, ?_⟩
    have e : (str "/approval" ++ str "/") = str "/approval/" := by decide
    rw [e]; exact h
  have hs : isStaticAsset pathname = false := by
    rcases h with rfl | hpre
    · decide
    · exact not_static_of_extends (by decide) hpre
  have hinner :
      (pathname == str "/login" || (str "/register").isPrefixOf pathname) = false := by
    cases hb : (pathname == str "/login" || (str "/register").isPrefixOf pathname)
    · rfl
    · exfalso
      rcases Bool.or_eq_true_iff.mp hb with h1 | h1
      · have hpl : pathname = str "/login" := by simpa using h1
        subst hpl
        rcases h with h2 | h2
        · exact absurd h2 (by decide)
        · exact absurd h2 (by decide)
      · rcases h with rfl | hpre
        · exact absurd h1 (by decide)
        · exact no_common_extension (a := str "/approval/") (b := str "/register")
            (by decide) (by decide) hpre (prefixes_of_isPrefixOf h1)
  rcases token with _ | t
  · simp [middleware, hs, hpub]
  · simp [middleware, hs, hpub, hinner]

/-- Witness for C8: `/approval/pending` with an inactive, non-approved
EMPLOYEE token is allowed. -/
theorem approval_always_allowed_witness :
    ((str "/approval/pending" : JStr) = str "/approval" ∨
      (str "/approval/") <+: (str "/approval/pending" : JStr)) ∧
    middleware (str "/approval/pending") (str "http://h/approval/pending")
        (some ⟨UserRole.EMPLOYEE, ApprovalStatus.PENDING, false⟩) = .next :=
  ⟨Or.inr (by decide),
   approval_always_allowed _ _ _ (Or.inr (by decide))⟩

/-- C9: every path beginning with two slashes is classified as a public
page (the "/" entry of `publicRoutes` prefix-matches it via the
trailing-slash rule), so with no token such a path — e.g. `//admin/x` — is
allowed rather than redirected to login. -/
theorem double_slash_paths_are_public
    (pathname requestUrl : JStr)
    (h : (str "//").isPrefixOf pathname = true) :
    isPublicRoute pathname = true ∧
      middleware pathname requestUrl none = .next := by
  have hpre : (str "//") <+: pathname := prefixes_of_isPrefixOf h
  have hpub : isPublicRoute pathname = true := by
    rw [isPublicRoute_iff]
    refine ⟨str "/", by decide, Or.inr ?_⟩
    have e : (str "/" ++ str "/") = str "//" := by decide
    rw [e]; exact hpre
  have hs : isStaticAsset pathname = false := not_static_of_extends (by decide) hpre
  exact ⟨hpub, by simp [middleware, hs, hpub]⟩

/-- Witness for C9: the double-slash path `//admin/x` with no token. -/
theorem double_slash_paths_are_public_witness :
    (str "//").isPrefixOf (str "//admin/x") = true ∧
    (isPublicRoute (str "//admin/x") = true ∧
      middleware (str "//admin/x") (str "http://h//admin/x") none = .next) :=
  ⟨by decide,
   double_slash_paths_are_public (str "//admin/x") (str "http://h//admin/x") (by decide)⟩

/-- C10: every decision is either pass-through or a redirect to one of the
six fixed destinations `/login` (with a `callbackUrl` or `error`
parameter), `/approval`, `/admin`, `/agent`, `/employee`, `/`. -/
theorem decision_targets_closed
    (pathname requestUrl : JStr) (token : Option SessionToken) :
    middleware pathname requestUrl token = .next ∨
      middleware pathname requestUrl token =
        .redirect (str "/login") [(str "callbackUrl", encodeURI requestUrl)] ∨
      middleware pathname requestUrl token =
        .redirect (str "/login") [(str "error", str "Account is inactive")] ∨
      middleware pathname requestUrl token = .redirect (str "/approval") [] ∨
      middleware pathname requestUrl token = .redirect (str "/admin") [] ∨
      middleware pathname requestUrl token = .redirect (str "/agent") [] ∨
      middleware pathname requestUrl token = .redirect (str "/employee") [] ∨
      middleware pathname requestUrl token = .redirect (str "/") [] := by
  rcases token with _ | t
  · simp only [middleware]
    repeat' split
    all_goals simp
  · simp only [middleware]
    repeat' split
    all_goals simp

end Gatekeeper
